import Mathlib

/-
Verification of the jmespath-proxy transform engine
(src/jmespath_proxy/app.py): the JMESPath-based transform pipeline,
label extraction for metrics, and the forwarding handler's
error-classification and relay behaviour.

The jmespath library itself is an external collaborator (not part of the
repository's sources); the evaluator below models the subset of its
behaviour that the repository's functions exercise, following the
contract stated in the specification (compile -> ParseError,
evaluate -> ExecutionError, field access, subexpressions,
multi-select dicts, function calls).
-/

/-- Modelled from the spec: a JSON-compatible value (Null/Bool/Number/String/
Array/Object), the dynamic value domain the evaluator works over.  Objects
keep insertion order, as Python dicts do.  Numbers are modelled as integers;
no claim depends on floating-point values. -/
inductive Json where
  | null : Json
  | bool : Bool → Json
  | num : Int → Json
  | str : String → Json
  | arr : List Json → Json
  | obj : List (String × Json) → Json

/-- Modelled from the spec: the compiled form of an expression, "a parsed
AST - a tree of typed nodes, each with a type tag and children, e.g.
multi_select_dict -> key_val_pair children".  Constructors mirror the
jmespath library's node kinds used by this repository. -/
inductive Ast where
  | field : String → Ast
  | subexpression : Ast → Ast → Ast
  | current : Ast
  | keyValPair : String → Ast → Ast
  | multiSelectDict : List Ast → Ast
  | functionExpression : String → List Ast → Ast

/-- The `type` tag of an AST node, as `parsed.get("type")` reads it. -/
def Ast.nodeType : Ast → String
  | Ast.field _ => "field"
  | Ast.subexpression _ _ => "subexpression"
  | Ast.current => "current"
  | Ast.keyValPair _ _ => "key_val_pair"
  | Ast.multiSelectDict _ => "multi_select_dict"
  | Ast.functionExpression _ _ => "function_expression"

/-- The `children` list of an AST node, as `parsed.get("children", [])`
reads it. -/
def Ast.children : Ast → List Ast
  | Ast.field _ => []
  | Ast.subexpression l r => [l, r]
  | Ast.current => []
  | Ast.keyValPair _ c => [c]
  | Ast.multiSelectDict cs => cs
  | Ast.functionExpression _ args => args

/-- The `value` entry of an AST node, as `child.get("value")` reads it:
the field name, the key of a key-value pair, or a function's name. -/
def Ast.nodeValue : Ast → Option String
  | Ast.field name => some name
  | Ast.keyValPair key _ => some key
  | Ast.functionExpression name _ => some name
  | _ => none

/-- Modelled from the spec: lexical tokens of the query-expression
grammar subset exercised by the repository. -/
inductive Tok where
  | ident : String → Tok
  | dot : Tok
  | comma : Tok
  | colon : Tok
  | lbrace : Tok
  | rbrace : Tok
  | lparen : Tok
  | rparen : Tok
  | atSign : Tok

def isIdentStart (c : Char) : Bool := c.isAlpha || c = '_'

def isIdentChar (c : Char) : Bool := c.isAlphanum || c = '_'

/-- Consume the remaining characters of an identifier. -/
def lexIdent : List Char → String → String × List Char
  | [], acc => (acc, [])
  | c :: cs, acc =>
      if isIdentChar c then lexIdent cs (acc.push c) else (acc, c :: cs)

/-- Modelled from the spec: the lexer of the expression language.  An
unknown character is a compilation (parse) failure. -/
def lexTokens : Nat → List Char → Except String (List Tok)
  | 0, _ => Except.error "lexer out of fuel"
  | _, [] => Except.ok []
  | fuel + 1, c :: cs =>
      if c = ' ' || c = '\n' || c = '\t' || c = '\r' then lexTokens fuel cs
      else if c = '.' then (lexTokens fuel cs).map (fun ts => Tok.dot :: ts)
      else if c = ',' then (lexTokens fuel cs).map (fun ts => Tok.comma :: ts)
      else if c = ':' then (lexTokens fuel cs).map (fun ts => Tok.colon :: ts)
      else if c = '\x7b' then (lexTokens fuel cs).map (fun ts => Tok.lbrace :: ts)
      else if c = '\x7d' then (lexTokens fuel cs).map (fun ts => Tok.rbrace :: ts)
      else if c = '(' then (lexTokens fuel cs).map (fun ts => Tok.lparen :: ts)
      else if c = ')' then (lexTokens fuel cs).map (fun ts => Tok.rparen :: ts)
      else if c = '@' then (lexTokens fuel cs).map (fun ts => Tok.atSign :: ts)
      else if isIdentStart c then
        let p := lexIdent cs (String.singleton c)
        (lexTokens fuel p.2).map (fun ts => Tok.ident p.1 :: ts)
      else Except.error ("Bad jmespath expression: unknown token " ++ c.toString)

mutual

/-- Modelled from the spec: parse one expression (a term possibly
followed by dotted sub-terms). -/
def parseOne : Nat → List Tok → Except String (Ast × List Tok)
  | 0, _ => Except.error "out of fuel"
  | fuel + 1, ts => do
      let p ← parseTerm fuel ts
      parseDots fuel p.1 p.2

/-- Parse a chain of `.term` continuations, left-associated, producing
nested `subexpression` nodes as the library's parser does. -/
def parseDots : Nat → Ast → List Tok → Except String (Ast × List Tok)
  | 0, _, _ => Except.error "out of fuel"
  | fuel + 1, left, ts =>
      match ts with
      | Tok.dot :: rest => do
          let p ← parseTerm fuel rest
          parseDots fuel (Ast.subexpression left p.1) p.2
      | _ => Except.ok (left, ts)

/-- Parse a single term: the current node `@`, a function call, a bare
field, or a multi-select dict. -/
def parseTerm : Nat → List Tok → Except String (Ast × List Tok)
  | 0, _ => Except.error "out of fuel"
  | fuel + 1, ts =>
      match ts with
      | Tok.atSign :: rest => Except.ok (Ast.current, rest)
      | Tok.ident name :: Tok.lparen :: Tok.rparen :: rest =>
          Except.ok (Ast.functionExpression name [], rest)
      | Tok.ident name :: Tok.lparen :: rest => do
          let p ← parseArgList fuel rest
          Except.ok (Ast.functionExpression name p.1, p.2)
      | Tok.ident name :: rest => Except.ok (Ast.field name, rest)
      | Tok.lbrace :: rest => do
          let p ← parsePairs fuel rest
          Except.ok (Ast.multiSelectDict p.1, p.2)
      | _ => Except.error "Parse error: unexpected token"

/-- Parse the comma-separated arguments of a function call, up to the
closing parenthesis. -/
def parseArgList : Nat → List Tok → Except String (List Ast × List Tok)
  | 0, _ => Except.error "out of fuel"
  | fuel + 1, ts => do
      let p ← parseOne fuel ts
      match p.2 with
      | Tok.comma :: rest => do
          let q ← parseArgList fuel rest
          Except.ok (p.1 :: q.1, q.2)
      | Tok.rparen :: rest => Except.ok ([p.1], rest)
      | _ => Except.error "Parse error: expected comma or closing parenthesis"

/-- Parse the `key: expr` members of a multi-select dict, each becoming a
`key_val_pair` child, preserving source order. -/
def parsePairs : Nat → List Tok → Except String (List Ast × List Tok)
  | 0, _ => Except.error "out of fuel"
  | fuel + 1, ts =>
      match ts with
      | Tok.ident key :: Tok.colon :: rest => do
          let p ← parseOne fuel rest
          match p.2 with
          | Tok.comma :: rest2 => do
              let q ← parsePairs fuel rest2
              Except.ok (Ast.keyValPair key p.1 :: q.1, q.2)
          | Tok.rbrace :: rest2 => Except.ok ([Ast.keyValPair key p.1], rest2)
          | _ => Except.error "Parse error: expected comma or closing brace"
      | _ => Except.error "Parse error: expected key in multi-select dict"

end

/-- Modelled from the spec: `compile(source) -> CompiledExpression | fails
with ParseError`.  The empty expression fails to compile, as the library's
EmptyExpressionError (a ParseError) does. -/
def jmespathCompile (expression : String) : Except String Ast :=
  if expression = "" then
    Except.error "Invalid JMESPath expression: cannot be empty"
  else do
    let chars := expression.toList
    let toks ← lexTokens (chars.length + 1) chars
    let p ← parseOne ((toks.length + 1) * 4) toks
    if p.2.isEmpty then Except.ok p.1
    else Except.error "Parse error: unexpected trailing tokens"

mutual

/-- Modelled from the spec: evaluation walks the compiled AST against the
supplied context value; field access on a non-object or a missing key
yields null; a multi-select dict applied to null yields null; calling an
undefined function fails with an execution error (the library's
UnknownFunctionError), after evaluating its arguments. -/
def evalAst : Nat → Ast → Json → Except String Json
  | 0, _, _ => Except.error "evaluator out of fuel"
  | fuel + 1, ast, value =>
      match ast with
      | Ast.field name =>
          match value with
          | Json.obj kvs =>
              Except.ok (((kvs.find? (fun kv => kv.1 == name)).map Prod.snd).getD Json.null)
          | _ => Except.ok Json.null
      | Ast.subexpression l r => do
          let v ← evalAst fuel l value
          evalAst fuel r v
      | Ast.current => Except.ok value
      | Ast.keyValPair _ child => evalAst fuel child value
      | Ast.multiSelectDict children =>
          match value with
          | Json.null => Except.ok Json.null
          | _ => do
              let pairs ← evalPairs fuel children value
              Except.ok (Json.obj pairs)
      | Ast.functionExpression name args => do
          let _ ← evalArgs fuel args value
          Except.error ("Unknown function: " ++ name ++ "()")

/-- Evaluate the key-value-pair children of a multi-select dict in order. -/
def evalPairs : Nat → List Ast → Json → Except String (List (String × Json))
  | 0, _, _ => Except.error "evaluator out of fuel"
  | _, [], _ => Except.ok []
  | fuel + 1, c :: cs, value =>
      match c with
      | Ast.keyValPair key child => do
          let v ← evalAst fuel child value
          let rest ← evalPairs fuel cs value
          Except.ok ((key, v) :: rest)
      | _ => Except.error "invalid multi-select dict child"

/-- Evaluate function arguments in order. -/
def evalArgs : Nat → List Ast → Json → Except String (List Json)
  | 0, _, _ => Except.error "evaluator out of fuel"
  | _, [], _ => Except.ok []
  | fuel + 1, a :: rest, value => do
      let v ← evalAst fuel a value
      let vs ← evalArgs fuel rest value
      Except.ok (v :: vs)

end

/-- Failure kinds of `jmespath.search`: `ParseError` (caught separately by
the repository's code) versus any other evaluation failure. -/
inductive JmesError where
  | parse : String → JmesError
  | exec : String → JmesError

/-- Modelled from the spec: `jmespath.search(expression, data)` - compile
then evaluate, classifying failures as parse or execution errors. -/
def jmespathSearch (expression : String) (data : Json) : Except JmesError Json :=
  match jmespathCompile expression with
  | Except.error m => Except.error (JmesError.parse m)
  | Except.ok ast =>
      match evalAst ((expression.length + 2) * 4) ast data with
      | Except.error m => Except.error (JmesError.exec m)
      | Except.ok v => Except.ok v

/-- The two-key evaluation context built by the pipeline:
`context_data = ("body": body_data, "query_params": query_params)`
(app.py line 193). -/
def evalContext (body_data query_params : Json) : Json :=
  Json.obj [("body", body_data), ("query_params", query_params)]

/-- Translation of `apply_jmespath_expression` (app.py lines 170-206):
empty expression returns the body unchanged with no error; a ParseError
from the search maps to a "JMESPath parse error: ..." message and any
other exception to a "JMESPath execution error: ..." message, both
echoing the original body as the first tuple element. -/
def apply_jmespath_expression (expression : String)
    (body_data query_params : Json) : Json × Option String :=
  if expression = "" then (body_data, none)
  else
    match jmespathSearch expression (evalContext body_data query_params) with
    | Except.ok result => (result, none)
    | Except.error (JmesError.parse m) =>
        (body_data, some ("JMESPath parse error: " ++ m))
    | Except.error (JmesError.exec m) =>
        (body_data, some ("JMESPath execution error: " ++ m))

/-- Translation of `extract_labelnames` (app.py lines 84-125): compile the
expression; only a `multi_select_dict` root yields label names, namely the
`value` of each `key_val_pair` child in order; every failure or other root
type yields the empty list. -/
def extract_labelnames (expression : String) : List String :=
  if expression = "" then []
  else
    match jmespathCompile expression with
    | Except.error _ => []
    | Except.ok parsed =>
        if parsed.nodeType = "multi_select_dict" then
          (parsed.children.filter
            (fun c => c.nodeType == "key_val_pair")).filterMap Ast.nodeValue
        else []

/-- Python truthiness of `None` (true exactly for null), used for the
`if v is not None` filter in `extract_metric_labels`. -/
def jsonIsNull : Json → Bool
  | Json.null => true
  | _ => false

/-- Whether a JSON value is a mapping, modelling
`isinstance(result, dict)`. -/
def jsonIsObj : Json → Bool
  | Json.obj _ => true
  | _ => false

def joinComma (parts : List String) : String := String.intercalate ", " parts

mutual

/-- Python `str()` of a parsed-JSON value, as applied to label values in
`extract_metric_labels`: None/True/False spellings, numbers printed
decimally, a string printed as itself, containers printed via repr. -/
def pyStr : Json → String
  | Json.null => "None"
  | Json.bool true => "True"
  | Json.bool false => "False"
  | Json.num n => toString n
  | Json.str s => s
  | Json.arr xs => "[" ++ joinComma (pyReprList xs) ++ "]"
  | Json.obj kvs => "\x7b" ++ joinComma (pyReprPairs kvs) ++ "\x7d"

/-- Python `repr()` of a parsed-JSON value (strings quoted), used for
elements nested inside containers. -/
def pyRepr : Json → String
  | Json.null => "None"
  | Json.bool true => "True"
  | Json.bool false => "False"
  | Json.num n => toString n
  | Json.str s => "\x27" ++ s ++ "\x27"
  | Json.arr xs => "[" ++ joinComma (pyReprList xs) ++ "]"
  | Json.obj kvs => "\x7b" ++ joinComma (pyReprPairs kvs) ++ "\x7d"

def pyReprList : List Json → List String
  | [] => []
  | x :: xs => pyRepr x :: pyReprList xs

def pyReprPairs : List (String × Json) → List String
  | [] => []
  | kv :: kvs => ("\x27" ++ kv.1 ++ "\x27: " ++ pyRepr kv.2) :: pyReprPairs kvs

end

/-- Translation of `extract_metric_labels` (app.py lines 209-252): empty
expression or any evaluation failure yields the empty mapping; a non-dict
result yields the empty mapping; otherwise every non-null value is coerced
with `str()` and null-valued entries are dropped. -/
def extract_metric_labels (expression : String)
    (body_data query_params : Json) : List (String × String) :=
  if expression = "" then []
  else
    match jmespathSearch expression (evalContext body_data query_params) with
    | Except.error _ => []
    | Except.ok result =>
        match result with
        | Json.obj kvs =>
            kvs.filterMap (fun kv =>
              if jsonIsNull kv.2 then none else some (kv.1, pyStr kv.2))
        | _ => []

/-- Python truthiness of an optional string: `None` and the empty string
are falsy (`if not expression`, `if error`,
`data.expression if data.expression else ...`). -/
def strTruthy : Option String → Bool
  | none => false
  | some s => s != ""

/-- The query-parameter dictionary as a JSON object
(`dict(request.query_params)`). -/
def qpJson (queryParams : List (String × String)) : Json :=
  Json.obj (queryParams.map (fun p => (p.1, Json.str p.2)))

/-- An upstream HTTP response as the forwarding handler observes it. -/
structure UpstreamResponse where
  status_code : Nat
  headers : List (String × String)
  content : String

/-- Modelled from the spec: the outcome of the single `client.post` call -
a response object, an HTTPError raised by the transport, or any other
exception. -/
inductive UpstreamBehavior where
  | response : UpstreamResponse → UpstreamBehavior
  | httpError : String → UpstreamBehavior
  | otherError : String → UpstreamBehavior

/-- The counters and histogram touched by one invocation of the
forwarding handler: `config_error`/`http_error`/`unexpected_error`
increments of `jmespath_proxy_forward_errors_total`, the
`jmespath_proxy_forwarded_total` increments (bare or with positional label
values), and the number of observations recorded by
`jmespath_proxy_forward_duration_seconds`. -/
structure Metrics where
  config_error : Nat
  http_error : Nat
  unexpected_error : Nat
  forwarded_unlabeled : Nat
  forwarded_labeled : List (List String)
  duration_count : Nat

def zeroMetrics : Metrics :=
  { config_error := 0, http_error := 0, unexpected_error := 0,
    forwarded_unlabeled := 0, forwarded_labeled := [], duration_count := 0 }

/-- What the handler hands back to litestar: either a JSON-encodable value
(the in-band error dictionaries) or a raw `Response(content, status_code,
headers)`. -/
inductive HandlerResponse where
  | jsonBody : Json → HandlerResponse
  | raw : String → Nat → List (String × String) → HandlerResponse

/-- The observable outcome of one forwarding-handler invocation: the
response returned to the caller, the metrics recorded, and how many POST
calls reached the upstream client. -/
structure ForwardResult where
  response : HandlerResponse
  metrics : Metrics
  upstream_calls : Nat

/-- `raise_for_status` on a 2xx response does nothing
(`httpx.Response.is_success`). -/
def is_success_status (status : Nat) : Bool := 200 ≤ status && status < 300

/-- Modelled from the spec: the message of the HTTPStatusError raised by
`raise_for_status` on a non-2xx response (an httpx collaborator detail,
kept abstract up to the status code). -/
def raise_for_status_message (r : UpstreamResponse) : String :=
  "HTTP status error for status code " ++ toString r.status_code

/-- Translation of the forwarding stage of `forward_json` (app.py lines
360-456), taking the already-transformed `result` and the extracted
`metric_labels`: with no FORWARD_URL it returns the configuration-error
body and bumps the config_error counter without touching the upstream or
the histogram; otherwise exactly one timed POST is attempted, HTTPError
(transport failure or raise_for_status) bumps http_error, any other
exception bumps unexpected_error - both echo `result` as original_data -
and a 2xx response bumps the forwarded counter (with positional label
values when label names are configured, substituting "" for missing
names) and is relayed as raw content with the upstream status and
headers. -/
def forward_stage (forwardUrl : String) (result : Json)
    (metric_labels : List (String × String)) (metricLabelNames : List String)
    (query_params_dict : Json) (upstream : UpstreamBehavior) : ForwardResult :=
  if forwardUrl = "" then
    { response := HandlerResponse.jsonBody (Json.obj
        [("error",
          Json.str "Configuration error: FORWARD_URL environment variable is not set"),
         ("original_data", result),
         ("query_params", query_params_dict)]),
      metrics := { zeroMetrics with config_error := 1 },
      upstream_calls := 0 }
  else
    match upstream with
    | UpstreamBehavior.httpError msg =>
        { response := HandlerResponse.jsonBody (Json.obj
            [("error", Json.str ("Failed to forward request: " ++ msg)),
             ("original_data", result),
             ("query_params", query_params_dict)]),
          metrics := { zeroMetrics with http_error := 1, duration_count := 1 },
          upstream_calls := 1 }
    | UpstreamBehavior.otherError msg =>
        { response := HandlerResponse.jsonBody (Json.obj
            [("error", Json.str ("Unexpected error during forwarding: " ++ msg)),
             ("original_data", result),
             ("query_params", query_params_dict)]),
          metrics := { zeroMetrics with unexpected_error := 1, duration_count := 1 },
          upstream_calls := 1 }
    | UpstreamBehavior.response r =>
        if is_success_status r.status_code then
          { response := HandlerResponse.raw r.content r.status_code r.headers,
            metrics :=
              if metricLabelNames.isEmpty then
                { zeroMetrics with forwarded_unlabeled := 1, duration_count := 1 }
              else
                { zeroMetrics with
                    forwarded_labeled :=
                      [metricLabelNames.map (fun n =>
                        (((metric_labels.find? (fun kv => kv.1 == n)).map
                          Prod.snd).getD ""))],
                    duration_count := 1 },
            upstream_calls := 1 }
        else
          { response := HandlerResponse.jsonBody (Json.obj
              [("error",
                Json.str ("Failed to forward request: " ++ raise_for_status_message r)),
               ("original_data", result),
               ("query_params", query_params_dict)]),
            metrics := { zeroMetrics with http_error := 1, duration_count := 1 },
            upstream_calls := 1 }

/-- Translation of the `forward_json` handler (app.py lines 332-456):
apply the configured expression, extract metric labels, return the
expression-error body if the transform failed, otherwise run the
forwarding stage. -/
def forward_json (jmespathExpression annotationExpression forwardUrl : String)
    (metricLabelNames : List String) (data : Json)
    (queryParams : List (String × String))
    (upstream : UpstreamBehavior) : ForwardResult :=
  let query_params_dict := qpJson queryParams
  let applied := apply_jmespath_expression jmespathExpression data query_params_dict
  let metric_labels :=
    extract_metric_labels annotationExpression data query_params_dict
  if strTruthy applied.2 then
    { response := HandlerResponse.jsonBody (Json.obj
        [("error", Json.str ("Error in global expression: " ++ applied.2.getD "")),
         ("original_data", data),
         ("query_params", query_params_dict)]),
      metrics := zeroMetrics,
      upstream_calls := 0 }
  else
    forward_stage forwardUrl applied.1 metric_labels metricLabelNames
      query_params_dict upstream

/-- Translation of the `test_jmes` handler (app.py lines 465-494): use the
payload's expression when it is truthy, else the server default; on a
transform error return the error body echoing the original data, else
return the transformed value. -/
def test_jmes (serverDefault : String) (payload_data : Json)
    (payload_expression : Option String)
    (queryParams : List (String × String)) : Json :=
  let query_params_dict := qpJson queryParams
  let jmespath_expression :=
    if strTruthy payload_expression then payload_expression.getD ""
    else serverDefault
  let applied :=
    apply_jmespath_expression jmespath_expression payload_data query_params_dict
  if strTruthy applied.2 then
    Json.obj [("error", Json.str (applied.2.getD "")),
              ("original_data", payload_data),
              ("query_params", query_params_dict)]
  else
    applied.1

/-- Claim C2: for every JSON body and every query-params mapping, applying
the empty expression returns exactly the body and no error (the guard at
app.py line 188 fires before any compilation or evaluation). -/
theorem apply_jmespath_empty_expression (body_data query_params : Json) :
    apply_jmespath_expression "" body_data query_params = (body_data, none) := by
  simp [apply_jmespath_expression]

/-- Claim C1 counterexample: compiling the empty expression does fail (the
library's EmptyExpressionError is a ParseError), yet
apply_jmespath_expression returns no "JMESPath parse error" message for
it - its error component is none, so the claim's universal message
guarantee does not cover the empty expression. -/
theorem apply_jmespath_empty_compile_counterexample :
    jmespathCompile "" =
      Except.error "Invalid JMESPath expression: cannot be empty" ∧
    apply_jmespath_expression "" (Json.obj []) (Json.obj []) =
      (Json.obj [], none) :=
  ⟨rfl, rfl⟩

/-- Claim C1 (amended to non-empty expressions): whenever the search over
the two-key context fails, apply_jmespath_expression returns the original
body as the first component and the failure message, prefixed
"JMESPath parse error: " for a compilation failure and
"JMESPath execution error: " for any other evaluation failure. -/
theorem apply_jmespath_failure_spec (expression : String)
    (body_data query_params : Json) (hne : expression ≠ "") :
    (∀ m, jmespathSearch expression (evalContext body_data query_params) =
        Except.error (JmesError.parse m) →
      apply_jmespath_expression expression body_data query_params =
        (body_data, some ("JMESPath parse error: " ++ m))) ∧
    (∀ m, jmespathSearch expression (evalContext body_data query_params) =
        Except.error (JmesError.exec m) →
      apply_jmespath_expression expression body_data query_params =
        (body_data, some ("JMESPath execution error: " ++ m))) := by
  constructor
  · intro m hm
    simp [apply_jmespath_expression, hne, hm]
  · intro m hm
    simp [apply_jmespath_expression, hne, hm]

/-- Claim C1 witness: a concrete compilation failure and a concrete
execution failure, each echoing the original body with the tagged
message. -/
theorem apply_jmespath_failure_spec_witness :
    apply_jmespath_expression "invalid[" (Json.obj [("k", Json.num 1)])
        (Json.obj []) =
      (Json.obj [("k", Json.num 1)],
       some "JMESPath parse error: Bad jmespath expression: unknown token [") ∧
    apply_jmespath_expression "nosuch(@)" (Json.obj [("k", Json.num 1)])
        (Json.obj []) =
      (Json.obj [("k", Json.num 1)],
       some "JMESPath execution error: Unknown function: nosuch()") := by
  constructor
  · exact (apply_jmespath_failure_spec "invalid[" _ _ (by decide)).1
      "Bad jmespath expression: unknown token [" rfl
  · exact (apply_jmespath_failure_spec "nosuch(@)" _ _ (by decide)).2
      "Unknown function: nosuch()" rfl

/-- Claim C3: extract_labelnames is total and yields the key names of the
key_val_pair children of a multi_select_dict root in source order, and
the empty list when the expression is empty, fails to compile, or has any
other root type; in particular the two-key dict expression over a and b
yields ["a", "b"]. -/
theorem extract_labelnames_spec (expression : String) :
    (expression = "" → extract_labelnames expression = []) ∧
    (∀ m, jmespathCompile expression = Except.error m →
        extract_labelnames expression = []) ∧
    (∀ ast, jmespathCompile expression = Except.ok ast →
        Ast.nodeType ast ≠ "multi_select_dict" →
        extract_labelnames expression = []) ∧
    (∀ ast, jmespathCompile expression = Except.ok ast →
        Ast.nodeType ast = "multi_select_dict" →
        extract_labelnames expression =
          (ast.children.filter
            (fun c => c.nodeType == "key_val_pair")).filterMap Ast.nodeValue) ∧
    extract_labelnames "\x7ba: x, b: y\x7d" = ["a", "b"] := by
  refine ⟨?_, ?_, ?_, ?_, rfl⟩
  · intro h
    simp [extract_labelnames, h]
  · intro m hm
    by_cases he : expression = ""
    · simp [extract_labelnames, he]
    · simp [extract_labelnames, he, hm]
  · intro ast hok hne
    have he : expression ≠ "" := by
      intro h
      rw [h] at hok
      simp [jmespathCompile] at hok
    simp [extract_labelnames, he, hok, hne]
  · intro ast hok hmsd
    have he : expression ≠ "" := by
      intro h
      rw [h] at hok
      simp [jmespathCompile] at hok
    simp [extract_labelnames, he, hok, hmsd]

/-- Claim C3 witness: the empty, unparsable, non-dict-rooted, and
dict-rooted cases at concrete expressions. -/
theorem extract_labelnames_spec_witness :
    extract_labelnames "" = [] ∧
    extract_labelnames "invalid[" = [] ∧
    extract_labelnames "x.y.z" = [] ∧
    extract_labelnames "\x7ba: x, b: y\x7d" = ["a", "b"] := by
  refine ⟨(extract_labelnames_spec "").1 rfl,
    (extract_labelnames_spec "invalid[").2.1
      "Bad jmespath expression: unknown token [" rfl, ?_, ?_⟩
  · exact (extract_labelnames_spec "x.y.z").2.2.1
      (Ast.subexpression (Ast.subexpression (Ast.field "x") (Ast.field "y"))
        (Ast.field "z")) rfl (by decide)
  · have h := (extract_labelnames_spec "\x7ba: x, b: y\x7d").2.2.2.1
      (Ast.multiSelectDict [Ast.keyValPair "a" (Ast.field "x"),
        Ast.keyValPair "b" (Ast.field "y")]) rfl rfl
    exact h.trans rfl

/-- Claim C8: the evaluation context exposes the body under "body" and the
query parameters under "query_params": the three example expressions of
the specification evaluate to "John", "12345", and the two-key composite
object respectively. -/
theorem evaluation_context_addressing :
    apply_jmespath_expression "body.user.name"
        (Json.obj [("user", Json.obj [("name", Json.str "John")])])
        (Json.obj [("user_id", Json.str "12345")]) = (Json.str "John", none) ∧
    apply_jmespath_expression "query_params.user_id"
        (Json.obj [("user", Json.obj [("name", Json.str "John")])])
        (Json.obj [("user_id", Json.str "12345")]) = (Json.str "12345", none) ∧
    apply_jmespath_expression
        "\x7buser_name: body.user.name, request_id: query_params.req_id\x7d"
        (Json.obj [("user", Json.obj [("name", Json.str "John")])])
        (Json.obj [("req_id", Json.str "abcde")]) =
      (Json.obj [("user_name", Json.str "John"),
                 ("request_id", Json.str "abcde")], none) :=
  ⟨rfl, rfl, rfl⟩

/-- Claim C7: extract_metric_labels is total and returns the empty mapping
when the expression is empty, evaluation fails, or the result is not a
mapping; otherwise it keeps the result's entries in order, coercing every
non-null value with Python str() and dropping null-valued entries. -/
theorem extract_metric_labels_spec (expression : String)
    (body_data query_params : Json) :
    (expression = "" →
        extract_metric_labels expression body_data query_params = []) ∧
    (∀ e, jmespathSearch expression (evalContext body_data query_params) =
        Except.error e →
      extract_metric_labels expression body_data query_params = []) ∧
    (∀ v, jmespathSearch expression (evalContext body_data query_params) =
        Except.ok v → jsonIsObj v = false →
      extract_metric_labels expression body_data query_params = []) ∧
    (∀ kvs, jmespathSearch expression (evalContext body_data query_params) =
        Except.ok (Json.obj kvs) →
      extract_metric_labels expression body_data query_params =
        kvs.filterMap (fun kv =>
          if jsonIsNull kv.2 then none else some (kv.1, pyStr kv.2))) := by
  refine ⟨?_, ?_, ?_, ?_⟩
  · intro h
    simp [extract_metric_labels, h]
  · intro e he
    by_cases h0 : expression = ""
    · simp [extract_metric_labels, h0]
    · simp [extract_metric_labels, h0, he]
  · intro v hv hobj
    have h0 : expression ≠ "" := by
      intro h
      rw [h] at hv
      simp [jmespathSearch, jmespathCompile] at hv
    cases v <;> simp_all [extract_metric_labels, h0, jsonIsObj]
  · intro kvs hk
    have h0 : expression ≠ "" := by
      intro h
      rw [h] at hk
      simp [jmespathSearch, jmespathCompile] at hk
    simp [extract_metric_labels, h0, hk]

/-- Claim C7 witness: the empty, failing, non-mapping, and mapping cases at
concrete inputs; the mapping case coerces 1 to "1", keeps "x", and drops
the null-valued entry. -/
theorem extract_metric_labels_spec_witness :
    extract_metric_labels "" (Json.obj []) (Json.obj []) = [] ∧
    extract_metric_labels "invalid[" (Json.obj []) (Json.obj []) = [] ∧
    extract_metric_labels "body" (Json.num 3) (Json.obj []) = [] ∧
    extract_metric_labels "body"
        (Json.obj [("a", Json.num 1), ("b", Json.null), ("c", Json.str "x")])
        (Json.obj []) = [("a", "1"), ("c", "x")] := by
  refine ⟨(extract_metric_labels_spec "" (Json.obj []) (Json.obj [])).1 rfl,
    ?_, ?_, ?_⟩
  · exact (extract_metric_labels_spec "invalid[" (Json.obj []) (Json.obj [])).2.1
      (JmesError.parse "Bad jmespath expression: unknown token [") rfl
  · exact (extract_metric_labels_spec "body" (Json.num 3) (Json.obj [])).2.2.1
      (Json.num 3) rfl rfl
  · have h := (extract_metric_labels_spec "body"
      (Json.obj [("a", Json.num 1), ("b", Json.null), ("c", Json.str "x")])
      (Json.obj [])).2.2.2
      [("a", Json.num 1), ("b", Json.null), ("c", Json.str "x")] rfl
    exact h.trans rfl

/-- Claim C4: with an empty upstream URL the forwarding stage returns the
in-band configuration-error response, performs no upstream call (the
outcome is the same for every upstream behaviour and upstream_calls is
zero), increments the forward-errors counter with error_type config_error
exactly once, and records nothing in the duration histogram. -/
theorem forward_stage_config_error_spec (result : Json)
    (metric_labels : List (String × String)) (metricLabelNames : List String)
    (query_params_dict : Json) (upstream : UpstreamBehavior) :
    forward_stage "" result metric_labels metricLabelNames query_params_dict
        upstream =
      { response := HandlerResponse.jsonBody (Json.obj
          [("error",
            Json.str "Configuration error: FORWARD_URL environment variable is not set"),
           ("original_data", result),
           ("query_params", query_params_dict)]),
        metrics := { zeroMetrics with config_error := 1 },
        upstream_calls := 0 } := rfl

/-- Claim C5: when the transform succeeded and a forward URL is
configured, a failing POST increments exactly one error counter -
http_error for an HTTPError (transport failure or non-2xx
raise_for_status), unexpected_error for any other exception - and the
error response echoes the transformed payload (the value sent upstream)
as original_data. -/
theorem forward_json_upstream_failure_spec
    (jmespathExpression annotationExpression forwardUrl : String)
    (metricLabelNames : List String) (data : Json)
    (queryParams : List (String × String))
    (h : strTruthy (apply_jmespath_expression jmespathExpression data
        (qpJson queryParams)).2 = false)
    (hurl : forwardUrl ≠ "") :
    (∀ msg, forward_json jmespathExpression annotationExpression forwardUrl
        metricLabelNames data queryParams (UpstreamBehavior.httpError msg) =
      { response := HandlerResponse.jsonBody (Json.obj
          [("error", Json.str ("Failed to forward request: " ++ msg)),
           ("original_data", (apply_jmespath_expression jmespathExpression data
              (qpJson queryParams)).1),
           ("query_params", qpJson queryParams)]),
        metrics := { zeroMetrics with http_error := 1, duration_count := 1 },
        upstream_calls := 1 }) ∧
    (∀ r, is_success_status r.status_code = false →
      forward_json jmespathExpression annotationExpression forwardUrl
        metricLabelNames data queryParams (UpstreamBehavior.response r) =
      { response := HandlerResponse.jsonBody (Json.obj
          [("error",
            Json.str ("Failed to forward request: " ++ raise_for_status_message r)),
           ("original_data", (apply_jmespath_expression jmespathExpression data
              (qpJson queryParams)).1),
           ("query_params", qpJson queryParams)]),
        metrics := { zeroMetrics with http_error := 1, duration_count := 1 },
        upstream_calls := 1 }) ∧
    (∀ msg, forward_json jmespathExpression annotationExpression forwardUrl
        metricLabelNames data queryParams (UpstreamBehavior.otherError msg) =
      { response := HandlerResponse.jsonBody (Json.obj
          [("error", Json.str ("Unexpected error during forwarding: " ++ msg)),
           ("original_data", (apply_jmespath_expression jmespathExpression data
              (qpJson queryParams)).1),
           ("query_params", qpJson queryParams)]),
        metrics := { zeroMetrics with unexpected_error := 1, duration_count := 1 },
        upstream_calls := 1 }) := by
  refine ⟨fun msg => ?_, fun r hr => ?_, fun msg => ?_⟩
  · simp [forward_json, forward_stage, h, hurl]
  · simp [forward_json, forward_stage, h, hurl, hr]
  · simp [forward_json, forward_stage, h, hurl]

/-- Claim C5 witness: a transport failure at a concrete request, with the
(identity-transformed) payload echoed as original_data and http_error
incremented once. -/
theorem forward_json_upstream_failure_spec_witness :
    forward_json "" "" "http://upstream" [] (Json.obj [("a", Json.num 1)]) []
        (UpstreamBehavior.httpError "Connection error") =
      { response := HandlerResponse.jsonBody (Json.obj
          [("error", Json.str "Failed to forward request: Connection error"),
           ("original_data", Json.obj [("a", Json.num 1)]),
           ("query_params", Json.obj [])]),
        metrics := { zeroMetrics with http_error := 1, duration_count := 1 },
        upstream_calls := 1 } := by
  have h := (forward_json_upstream_failure_spec "" "" "http://upstream" []
    (Json.obj [("a", Json.num 1)]) [] rfl (by decide)).1 "Connection error"
  exact h.trans rfl

/-- Claim C6, code evaluated at the failing input: on a 2xx upstream
response with content-type application/json, forward_json relays the raw
content bytes with the upstream status and headers verbatim - no JSON
decode and re-encode happens on any path. -/
theorem forward_json_relays_raw_bytes :
    (forward_json "" "" "http://upstream" [] (Json.obj []) []
        (UpstreamBehavior.response
          { status_code := 200,
            headers := [("content-type", "application/json")],
            content := "\x7b\"result\": \"success\"\x7d" })).response =
      HandlerResponse.raw "\x7b\"result\": \"success\"\x7d" 200
        [("content-type", "application/json")] := rfl

/-- Claim C10: when the test payload's expression field is absent, null,
or the empty string, test_jmes applies the server-configured default
expression - its response is exactly the response obtained by applying
the default to the payload and query parameters. -/
theorem test_jmes_uses_server_default (serverDefault : String)
    (payload_data : Json) (payload_expression : Option String)
    (queryParams : List (String × String))
    (h : payload_expression = none ∨ payload_expression = some "") :
    test_jmes serverDefault payload_data payload_expression queryParams =
      (let applied := apply_jmespath_expression serverDefault payload_data
          (qpJson queryParams)
       if strTruthy applied.2 then
         Json.obj [("error", Json.str (applied.2.getD "")),
                   ("original_data", payload_data),
                   ("query_params", qpJson queryParams)]
       else applied.1) := by
  rcases h with h | h <;> subst h <;> rfl

/-- Claim C10 witness: with a non-empty server default and an empty
expression string in the payload, the default transform is applied (the
result is "John", not the untransformed payload). -/
theorem test_jmes_uses_server_default_witness :
    test_jmes "body.user.name"
        (Json.obj [("user", Json.obj [("name", Json.str "John")])])
        (some "") [] = Json.str "John" := by
  have h := test_jmes_uses_server_default "body.user.name"
    (Json.obj [("user", Json.obj [("name", Json.str "John")])]) (some "") []
    (Or.inr rfl)
  exact h.trans rfl
